import Mathlib

/-!
Shallow embedding of the request-validation-and-forwarding pipeline of the
interactive-prompt-playground backend.

Hardened server (`src/unnamed/part_000`): `validateChatRequest` middleware,
the `/api/chat` handler (message assembly, stop-sequence processing, the
clamped `requestBody`, the upstream-error translation), modelled below by
`validateChatRequest`, `buildRequestBody`, `handleChat` and `translateError`.
Legacy server (`src/server/index.js`): its catch-block is modelled by
`legacyTranslateError`.

Modelling conventions:
- JavaScript strings are `List Char` (`JsStr`); `String.prototype.trim` is
  `jsTrim`, `split(',')` is `splitOnComma`, `.length` is `List.length`.
- JavaScript numbers are `JsNum`: NaN, the two infinities, or a finite
  value represented exactly as a rational (every float is a rational; the
  only operations used are comparisons, `Math.min`/`Math.max` and `||`
  truthiness, all of which are value-exact).
- An arbitrary JSON body field is a `JsVal` (absent = `undef`).
-/

/-- JavaScript number: NaN, ±Infinity, or a finite value (as an exact
rational). -/
inductive JsNum where
  | nan : JsNum
  | posInf : JsNum
  | negInf : JsNum
  | fin : ℚ → JsNum
deriving DecidableEq

/-- JavaScript truthiness of a number: `0` and `NaN` are falsy. -/
def JsNum.truthy : JsNum → Bool
  | JsNum.nan => false
  | JsNum.posInf => true
  | JsNum.negInf => true
  | JsNum.fin q => decide (q ≠ 0)

/-- The JavaScript `<` comparison on numbers: any comparison with NaN is
false. -/
def JsNum.jlt : JsNum → JsNum → Bool
  | JsNum.nan, _ => false
  | _, JsNum.nan => false
  | JsNum.negInf, JsNum.negInf => false
  | JsNum.negInf, _ => true
  | _, JsNum.negInf => false
  | JsNum.posInf, _ => false
  | JsNum.fin _, JsNum.posInf => true
  | JsNum.fin p, JsNum.fin q => decide (p < q)

/-- `Math.min`, restricted to non-NaN semantics plus NaN propagation. -/
def jsMin : JsNum → JsNum → JsNum
  | JsNum.nan, _ => JsNum.nan
  | _, JsNum.nan => JsNum.nan
  | JsNum.negInf, _ => JsNum.negInf
  | _, JsNum.negInf => JsNum.negInf
  | JsNum.posInf, y => y
  | x, JsNum.posInf => x
  | JsNum.fin p, JsNum.fin q => JsNum.fin (min p q)

/-- `Math.max`, restricted to non-NaN semantics plus NaN propagation. -/
def jsMax : JsNum → JsNum → JsNum
  | JsNum.nan, _ => JsNum.nan
  | _, JsNum.nan => JsNum.nan
  | JsNum.posInf, _ => JsNum.posInf
  | _, JsNum.posInf => JsNum.posInf
  | JsNum.negInf, y => y
  | x, JsNum.negInf => x
  | JsNum.fin p, JsNum.fin q => JsNum.fin (max p q)

/-- `Math.max(lo, Math.min(hi, x))`, the clamp pattern of the request
builder. -/
def jsClamp (lo hi x : JsNum) : JsNum := jsMax lo (jsMin hi x)

/-- A JavaScript string, as its list of characters. -/
abbrev JsStr := List Char

/-- The whitespace characters relevant to `String.prototype.trim` for the
inputs considered here. -/
def isWs (c : Char) : Bool := c = ' ' || c = '\t' || c = '\n' || c = '\r'

/-- `String.prototype.trim`: drop leading and trailing whitespace. -/
def jsTrim (s : JsStr) : JsStr :=
  ((s.dropWhile isWs).reverse.dropWhile isWs).reverse

/-- `String.prototype.split(',')`: the comma-separated pieces, keeping
empty pieces, with `[""]` for the empty string. -/
def splitOnComma : JsStr → List JsStr
  | [] => [[]]
  | c :: rest =>
    if c = ',' then [] :: splitOnComma rest
    else
      match splitOnComma rest with
      | t :: ts => (c :: t) :: ts
      | [] => [[c]]

/-- An arbitrary JSON request-body field (`undef` = property absent). -/
inductive JsVal where
  | undef : JsVal
  | nullv : JsVal
  | boolv : Bool → JsVal
  | num : JsNum → JsVal
  | str : JsStr → JsVal
  | obj : JsVal
deriving DecidableEq

/-- JavaScript truthiness of a request-body field. -/
def jsTruthy : JsVal → Bool
  | JsVal.undef => false
  | JsVal.nullv => false
  | JsVal.boolv b => b
  | JsVal.num n => n.truthy
  | JsVal.str s => decide (s ≠ [])
  | JsVal.obj => true

/-- The destructured `req.body` of `POST /api/chat`. -/
structure ChatBody where
  model : JsVal := JsVal.undef
  systemPrompt : JsVal := JsVal.undef
  userPrompt : JsVal := JsVal.undef
  temperature : JsVal := JsVal.undef
  maxTokens : JsVal := JsVal.undef
  presencePenalty : JsVal := JsVal.undef
  frequencyPenalty : JsVal := JsVal.undef
  stopSequence : JsVal := JsVal.undef
deriving DecidableEq

/-- An HTTP error response: status code plus the `{error, type}` JSON
body. -/
structure ErrResponse where
  status : Nat
  error : String
  type : String
deriving DecidableEq

/-- `src/unnamed/part_000` line 78. -/
def userPromptRequiredErr : ErrResponse :=
  ⟨400, "User prompt is required and must be a non-empty string", "validation_error"⟩

/-- `src/unnamed/part_000` line 86. -/
def userPromptTooLongErr : ErrResponse :=
  ⟨400, "User prompt too long (max 8000 characters)", "validation_error"⟩

/-- `src/unnamed/part_000` line 93. -/
def systemPromptErr : ErrResponse :=
  ⟨400, "System prompt must be a string with max 4000 characters", "validation_error"⟩

/-- `src/unnamed/part_000` line 102. -/
def invalidModelErr : ErrResponse :=
  ⟨400, "Invalid model specified", "validation_error"⟩

/-- `src/unnamed/part_000` line 122: the message is interpolated from the
field name and its bounds. -/
def numericErr (field : String) (lo hi : Nat) : ErrResponse :=
  ⟨400, field ++ " must be a number between " ++ toString lo ++ " and " ++ toString hi,
    "validation_error"⟩

/-- `src/unnamed/part_000` line 131. -/
def stopSequenceErr : ErrResponse :=
  ⟨400, "Stop sequence must be a string", "validation_error"⟩

/-- The allow-list of `src/unnamed/part_000` line 101. -/
def allowedModels : List JsStr :=
  [String.toList "gpt-3.5-turbo", String.toList "gpt-4", String.toList "gpt-4-turbo-preview"]

/-- `systemPrompt && (typeof systemPrompt !== 'string' || systemPrompt.length > 4000)`. -/
def sysPromptBad (v : JsVal) : Bool :=
  jsTruthy v &&
    (match v with
     | JsVal.str s => decide (4000 < s.length)
     | _ => true)

/-- `allowedModels.includes(model)`: strict-equality membership, so only a
string can be in the list. -/
def modelInAllowed (v : JsVal) : Bool :=
  match v with
  | JsVal.str m => decide (m ∈ allowedModels)
  | _ => false

/-- `model && !allowedModels.includes(model)`. -/
def modelBad (v : JsVal) : Bool := jsTruthy v && !modelInAllowed v

/-- One entry of the `numericValidations` loop: the check fires when the
field is present (`!== undefined`) and is not a number, or compares below
`lo` or above `hi`.  NaN compares false against both bounds. -/
def numBad (v : JsVal) (lo hi : JsNum) : Bool :=
  match v with
  | JsVal.undef => false
  | JsVal.num n => JsNum.jlt n lo || JsNum.jlt hi n
  | _ => true

/-- `stopSequence && typeof stopSequence !== 'string'`. -/
def stopBad (v : JsVal) : Bool :=
  jsTruthy v &&
    (match v with
     | JsVal.str _ => false
     | _ => true)

/-- The `validateChatRequest` middleware of `src/unnamed/part_000`
lines 65-139: `some e` means the middleware responds `e` and the handler
never runs; `none` means `next()` is called.  The first guard
`!userPrompt || typeof userPrompt !== 'string' || !userPrompt.trim()`
is rendered as: non-strings fail, and a string fails exactly when its
trim is empty (an empty string is falsy, and its trim is also empty). -/
def validateChatRequest (b : ChatBody) : Option ErrResponse :=
  match b.userPrompt with
  | JsVal.str s =>
    if jsTrim s = [] then some userPromptRequiredErr
    else if 8000 < s.length then some userPromptTooLongErr
    else if sysPromptBad b.systemPrompt then some systemPromptErr
    else if modelBad b.model then some invalidModelErr
    else if numBad b.temperature (JsNum.fin 0) (JsNum.fin 2) then
      some (numericErr "temperature" 0 2)
    else if numBad b.maxTokens (JsNum.fin 1) (JsNum.fin 4000) then
      some (numericErr "maxTokens" 1 4000)
    else if numBad b.presencePenalty (JsNum.fin 0) (JsNum.fin 2) then
      some (numericErr "presencePenalty" 0 2)
    else if numBad b.frequencyPenalty (JsNum.fin 0) (JsNum.fin 2) then
      some (numericErr "frequencyPenalty" 0 2)
    else if stopBad b.stopSequence then some stopSequenceErr
    else none
  | _ => some userPromptRequiredErr


/-- One chat message of the upstream payload. -/
structure Message where
  role : String
  content : JsStr
deriving DecidableEq

/-- The upstream chat-completion payload (`requestBody` of
`src/unnamed/part_000` lines 204-215).  `stop = none` means the field is
omitted from the payload. -/
structure RequestBody where
  model : JsStr
  messages : List Message
  temperature : JsNum
  max_tokens : JsNum
  presence_penalty : JsNum
  frequency_penalty : JsNum
  stop : Option (List JsStr)
deriving DecidableEq

/-- The handler's view of a request that passed validation: every field it
destructures, with the type validation guarantees (or that the `||` and
`&&` guards make observationally equivalent; a falsy non-string `model`,
`systemPrompt` or `stopSequence` behaves like an absent one, and absent is
how it is represented here). -/
structure ValidBody where
  model : Option JsStr := none
  systemPrompt : Option JsStr := none
  userPrompt : JsStr
  temperature : Option JsNum := none
  maxTokens : Option JsNum := none
  presencePenalty : Option JsNum := none
  frequencyPenalty : Option JsNum := none
  stopSequence : Option JsStr := none
deriving DecidableEq

/-- The JavaScript `v || d` default pattern on a possibly-absent number:
the default is taken when the value is absent or falsy (`0` or NaN). -/
def jsOrNum (v : Option JsNum) (d : JsNum) : JsNum :=
  match v with
  | none => d
  | some n => if n.truthy then n else d

/-- The JavaScript `v || d` default pattern on a possibly-absent string:
the default is taken when the value is absent or the empty string. -/
def jsOrStr (v : Option JsStr) (d : JsStr) : JsStr :=
  match v with
  | none => d
  | some s => if s = [] then d else s

/-- The `messages` array of `src/unnamed/part_000` lines 175-187: an
optional system message (only when `systemPrompt && systemPrompt.trim()`)
followed by the trimmed user prompt. -/
def buildMessages (sys : Option JsStr) (user : JsStr) : List Message :=
  (match sys with
   | some s => if s ≠ [] ∧ jsTrim s ≠ [] then [Message.mk "system" (jsTrim s)] else []
   | none => []) ++ [Message.mk "user" (jsTrim user)]

/-- The stop-sequence preparation of `src/unnamed/part_000` lines 190-201
and 213-215: under the `stopSequence && stopSequence.trim()` guard, split
on commas, trim, keep tokens of length 1..100, keep the first 4; a `null`
result leaves the field out of the payload (`none`). -/
def buildStop (v : Option JsStr) : Option (List JsStr) :=
  match v with
  | none => none
  | some s =>
    if s ≠ [] ∧ jsTrim s ≠ [] then
      let stop := ((((splitOnComma s).map jsTrim).filter
        (fun t => decide (0 < t.length) && decide (t.length ≤ 100))).take 4)
      if stop = [] then none else some stop
    else none

/-- The `requestBody` of `src/unnamed/part_000` lines 204-215. -/
def buildRequestBody (b : ValidBody) : RequestBody :=
  { model := jsOrStr b.model (String.toList "gpt-3.5-turbo")
    messages := buildMessages b.systemPrompt b.userPrompt
    temperature := jsClamp (JsNum.fin 0) (JsNum.fin 2) (jsOrNum b.temperature (JsNum.fin (7/10)))
    max_tokens := jsClamp (JsNum.fin 1) (JsNum.fin 4000) (jsOrNum b.maxTokens (JsNum.fin 1000))
    presence_penalty := jsClamp (JsNum.fin 0) (JsNum.fin 2) (jsOrNum b.presencePenalty (JsNum.fin 0))
    frequency_penalty := jsClamp (JsNum.fin 0) (JsNum.fin 2) (jsOrNum b.frequencyPenalty (JsNum.fin 0))
    stop := buildStop b.stopSequence }

/-- Projection of the raw body onto the handler's view; exact on the
post-validation domain (see `ValidBody`).  The `userPrompt` default `[]`
is unreachable: validation guarantees a string. -/
def toValidBody (b : ChatBody) : ValidBody :=
  { model := match b.model with | JsVal.str s => some s | _ => none
    systemPrompt := match b.systemPrompt with | JsVal.str s => some s | _ => none
    userPrompt := match b.userPrompt with | JsVal.str s => s | _ => []
    temperature := match b.temperature with | JsVal.num n => some n | _ => none
    maxTokens := match b.maxTokens with | JsVal.num n => some n | _ => none
    presencePenalty := match b.presencePenalty with | JsVal.num n => some n | _ => none
    frequencyPenalty := match b.frequencyPenalty with | JsVal.num n => some n | _ => none
    stopSequence := match b.stopSequence with | JsVal.str s => some s | _ => none }

/-- Outcome of `POST /api/chat` up to the upstream call: either the
validation middleware rejected the request (no upstream call), or the
handler forwards the built payload upstream. -/
inductive EndpointOutcome where
  | reject : ErrResponse → EndpointOutcome
  | forward : RequestBody → EndpointOutcome
deriving DecidableEq

/-- `app.post('/api/chat', validateChatRequest, handler)` of
`src/unnamed/part_000` line 161: the middleware runs first; only when it
passes does the handler build and forward the payload. -/
def handleChat (b : ChatBody) : EndpointOutcome :=
  match validateChatRequest b with
  | some e => EndpointOutcome.reject e
  | none => EndpointOutcome.forward (buildRequestBody (toValidBody b))

/-- An upstream failure as the catch block sees it: `error.code` (absent
for plain errors), `error.name`, `error.message`. -/
structure UpstreamError where
  code : Option String
  name : String
  message : String
deriving DecidableEq

/-- The catch block of `src/unnamed/part_000` lines 250-299. -/
def translateError (e : UpstreamError) : ErrResponse :=
  if e.code = some "insufficient_quota" then
    ⟨402, "API quota exceeded. Please check your billing details.", "quota_exceeded"⟩
  else if e.code = some "invalid_api_key" then
    ⟨401, "Invalid API key configuration.", "invalid_key"⟩
  else if e.code = some "model_not_found" then
    ⟨400, "The specified model is not available.", "model_not_found"⟩
  else if e.code = some "rate_limit_exceeded" then
    ⟨429, "Rate limit exceeded. Please try again later.", "rate_limit"⟩
  else if e.name = "AbortError" then
    ⟨408, "Request timeout. Please try again.", "timeout"⟩
  else
    ⟨500, "An error occurred while processing your request", "server_error"⟩

/-- The catch block of the legacy server `src/server/index.js`
lines 112-148: no timeout branch, and the fallback 500 echoes
`error.message || '...'`. -/
def legacyTranslateError (e : UpstreamError) : ErrResponse :=
  if e.code = some "insufficient_quota" then
    ⟨402, "OpenAI API quota exceeded. Please check your billing details.", "quota_exceeded"⟩
  else if e.code = some "invalid_api_key" then
    ⟨401, "Invalid OpenAI API key. Please check your configuration.", "invalid_key"⟩
  else if e.code = some "model_not_found" then
    ⟨400, "The specified model is not available.", "model_not_found"⟩
  else if e.code = some "rate_limit_exceeded" then
    ⟨429, "Rate limit exceeded. Please try again later.", "rate_limit"⟩
  else
    ⟨500, if e.message = "" then "An error occurred while processing your request" else e.message,
      "server_error"⟩


lemma dropWhile_all_iff (p : Char → Bool) (l : List Char) :
    (∀ c ∈ l.dropWhile p, p c = true) ↔ (∀ c ∈ l, p c = true) := by
  induction l with
  | nil => simp
  | cons d t ih =>
    rw [List.dropWhile_cons]
    by_cases hd : p d = true
    · simp [hd, ih]
    · simp [hd]

lemma jsTrim_eq_nil_iff (s : JsStr) : jsTrim s = [] ↔ ∀ c ∈ s, isWs c = true := by
  unfold jsTrim
  rw [List.reverse_eq_nil_iff, List.dropWhile_eq_nil_iff]
  simp only [List.mem_reverse]
  exact dropWhile_all_iff isWs s

lemma splitOnComma_ne_nil (s : JsStr) : splitOnComma s ≠ [] := by
  induction s with
  | nil => simp [splitOnComma]
  | cons c rest ih =>
    unfold splitOnComma
    by_cases hc : c = ','
    · simp [hc]
    · simp only [hc, if_false]
      cases h : splitOnComma rest with
      | nil => exact absurd h ih
      | cons t ts => simp

lemma mem_of_mem_splitOnComma {s t : JsStr} {c : Char}
    (ht : t ∈ splitOnComma s) (hc : c ∈ t) : c ∈ s := by
  induction s generalizing t with
  | nil =>
    simp [splitOnComma] at ht
    subst ht
    exact absurd hc (List.not_mem_nil c)
  | cons d rest ih =>
    unfold splitOnComma at ht
    by_cases hd : d = ','
    · simp only [hd, if_true] at ht
      rcases List.mem_cons.mp ht with h | h
      · subst h
        exact absurd hc (List.not_mem_nil c)
      · exact List.mem_cons_of_mem d (ih h hc)
    · simp only [hd, if_false] at ht
      cases hsp : splitOnComma rest with
      | nil => exact absurd hsp (splitOnComma_ne_nil rest)
      | cons t0 ts =>
        rw [hsp] at ht
        rcases List.mem_cons.mp ht with h | h
        · subst h
          rcases List.mem_cons.mp hc with h2 | h2
          · subst h2
            exact List.mem_cons_self c rest
          · refine List.mem_cons_of_mem d (ih ?_ h2)
            rw [hsp]
            exact List.mem_cons_self t0 ts
        · refine List.mem_cons_of_mem d (ih ?_ hc)
          rw [hsp]
          exact List.mem_cons_of_mem t0 h

lemma validate_some_shape {b : ChatBody} {e : ErrResponse}
    (h : validateChatRequest b = some e) : e.status = 400 ∧ e.type = "validation_error" := by
  unfold validateChatRequest at h
  split at h
  · repeat' first
      | (cases h; exact ⟨rfl, rfl⟩)
      | split at h
    exact Option.noConfusion h
  · cases h
    exact ⟨rfl, rfl⟩

lemma validate_none_conditions {b : ChatBody} (h : validateChatRequest b = none) :
    ∃ s, b.userPrompt = JsVal.str s ∧ jsTrim s ≠ [] ∧ s.length ≤ 8000 ∧
      sysPromptBad b.systemPrompt = false ∧ modelBad b.model = false ∧
      numBad b.temperature (JsNum.fin 0) (JsNum.fin 2) = false ∧
      numBad b.maxTokens (JsNum.fin 1) (JsNum.fin 4000) = false ∧
      numBad b.presencePenalty (JsNum.fin 0) (JsNum.fin 2) = false ∧
      numBad b.frequencyPenalty (JsNum.fin 0) (JsNum.fin 2) = false ∧
      stopBad b.stopSequence = false := by
  unfold validateChatRequest at h
  split at h
  case _ s heq =>
    repeat' first
      | exact Option.noConfusion h
      | split at h
    refine ⟨s, heq, ?_, ?_, ?_, ?_, ?_, ?_, ?_, ?_, ?_⟩ <;>
      simp only [Bool.not_eq_true] at * <;> first | assumption | omega
  case _ => exact Option.noConfusion h

/-- The spec's "a number lying within the documented bound": a finite
value between the bounds inclusive (NaN and the infinities do not lie
within any bound). -/
def specWithinBound (lo hi : ℚ) (n : JsNum) : Prop :=
  ∃ q, n = JsNum.fin q ∧ lo ≤ q ∧ q ≤ hi

lemma truthy_ne_nan {n : JsNum} (h : n.truthy = true) : n ≠ JsNum.nan := by
  intro hn
  subst hn
  exact Bool.noConfusion h

lemma jsOrNum_ne_nan (v : Option JsNum) {d : JsNum} (hd : d ≠ JsNum.nan) :
    jsOrNum v d ≠ JsNum.nan := by
  unfold jsOrNum
  cases v with
  | none => exact hd
  | some n =>
    by_cases hn : n.truthy = true
    · simp only [hn, if_true]
      exact truthy_ne_nan hn
    · simp only [hn, if_false]
      exact hd

lemma jsClamp_within {lo hi : ℚ} (hle : lo ≤ hi) {x : JsNum} (hx : x ≠ JsNum.nan) :
    specWithinBound lo hi (jsClamp (JsNum.fin lo) (JsNum.fin hi) x) := by
  cases x with
  | nan => exact absurd rfl hx
  | posInf => exact ⟨max lo hi, rfl, le_max_left lo hi, by simp [hle]⟩
  | negInf => exact ⟨lo, rfl, le_refl lo, hle⟩
  | fin q =>
    refine ⟨max lo (min hi q), rfl, le_max_left _ _, ?_⟩
    exact max_le hle (min_le_left hi q)

/-- A `userPrompt` field the first validation guard rejects: absent, any
non-string, or a string that is empty or whitespace-only. -/
def badUserPrompt : JsVal → Bool
  | JsVal.str s => decide (jsTrim s = [])
  | _ => true

/-- C1: a `POST /api/chat` body that fails any validation rule is answered
with HTTP 400 and type `validation_error`, and the request builder is
never invoked (no upstream payload is built, no upstream call happens);
in particular an absent, non-string, empty or whitespace-only `userPrompt`
fails validation. -/
theorem c1_validation_rejected_before_builder (b : ChatBody) :
    (∀ e, validateChatRequest b = some e →
      e.status = 400 ∧ e.type = "validation_error" ∧
        handleChat b = EndpointOutcome.reject e) ∧
    (badUserPrompt b.userPrompt = true →
      validateChatRequest b = some userPromptRequiredErr) := by
  constructor
  · intro e he
    obtain ⟨h1, h2⟩ := validate_some_shape he
    refine ⟨h1, h2, ?_⟩
    unfold handleChat
    rw [he]
  · intro hb
    unfold validateChatRequest
    cases hu : b.userPrompt with
    | str s =>
      rw [hu] at hb
      simp only [badUserPrompt, decide_eq_true_eq] at hb
      simp [hb]
    | undef => rfl
    | nullv => rfl
    | boolv x => rfl
    | num x => rfl
    | obj => rfl

theorem c1_witness :
    userPromptRequiredErr.status = 400 ∧ userPromptRequiredErr.type = "validation_error" ∧
      handleChat {} = EndpointOutcome.reject userPromptRequiredErr ∧
      validateChatRequest { userPrompt := JsVal.str [' ', '\t'] } =
        some userPromptRequiredErr := by
  have h1 := (c1_validation_rejected_before_builder {}).1 userPromptRequiredErr (by decide)
  have h2 :=
    (c1_validation_rejected_before_builder { userPrompt := JsVal.str [' ', '\t'] }).2 (by decide)
  exact ⟨h1.1, h1.2.1, h1.2.2, h2⟩

lemma clamp02_seventenths :
    jsClamp (JsNum.fin 0) (JsNum.fin 2) (JsNum.fin (7/10)) = JsNum.fin (7/10) := by
  have hmin : min (2:ℚ) (7/10) = 7/10 := min_eq_right (by norm_num)
  have hmax : max (0:ℚ) (7/10) = 7/10 := max_eq_right (by norm_num)
  simp [jsClamp, jsMin, jsMax, hmin, hmax]

lemma clamp02_zero : jsClamp (JsNum.fin 0) (JsNum.fin 2) (JsNum.fin 0) = JsNum.fin 0 := by decide

lemma clampTok_thousand :
    jsClamp (JsNum.fin 1) (JsNum.fin 4000) (JsNum.fin 1000) = JsNum.fin 1000 := by decide

/-- C2 counterexample: the claim says a present `maxTokens = 0` is clamped
to `1` and a present in-range `temperature = 0` is forwarded unchanged;
the code's `||` defaulting makes `0` falsy, so `maxTokens = 0` forwards
`1000` and `temperature = 0` forwards `0.7`. -/
theorem c2_counterexample :
    (buildRequestBody
        { userPrompt := ['h', 'i'], maxTokens := some (JsNum.fin 0) }).max_tokens =
      JsNum.fin 1000 ∧
    JsNum.fin (1000 : ℚ) ≠ JsNum.fin 1 ∧
    (buildRequestBody
        { userPrompt := ['h', 'i'], temperature := some (JsNum.fin 0) }).temperature =
      JsNum.fin (7/10) ∧
    jsClamp (JsNum.fin 0) (JsNum.fin 2) (JsNum.fin 0) = JsNum.fin 0 ∧
    JsNum.fin (7/10) ≠ JsNum.fin 0 := by
  refine ⟨by decide, by decide, ?_, clamp02_zero, ?_⟩
  · simp [buildRequestBody, jsOrNum, JsNum.truthy, clamp02_seventenths]
  · simp only [ne_eq, JsNum.fin.injEq]
    norm_num

/-- C2 (amended): a numeric parameter present with a truthy value
(non-zero, non-NaN) is forwarded as its clamp into the documented range;
when the parameter is absent, zero, or NaN, the clamped default (0.7,
1000, 0, 0) is forwarded instead. -/
theorem c2_amended_forwarding (b : ValidBody) :
    (∀ n, b.temperature = some n → n.truthy = true →
      (buildRequestBody b).temperature = jsClamp (JsNum.fin 0) (JsNum.fin 2) n) ∧
    (b.temperature = none ∨ b.temperature = some (JsNum.fin 0) ∨
        b.temperature = some JsNum.nan →
      (buildRequestBody b).temperature = JsNum.fin (7/10)) ∧
    (∀ n, b.maxTokens = some n → n.truthy = true →
      (buildRequestBody b).max_tokens = jsClamp (JsNum.fin 1) (JsNum.fin 4000) n) ∧
    (b.maxTokens = none ∨ b.maxTokens = some (JsNum.fin 0) ∨ b.maxTokens = some JsNum.nan →
      (buildRequestBody b).max_tokens = JsNum.fin 1000) ∧
    (∀ n, b.presencePenalty = some n → n.truthy = true →
      (buildRequestBody b).presence_penalty = jsClamp (JsNum.fin 0) (JsNum.fin 2) n) ∧
    (b.presencePenalty = none ∨ b.presencePenalty = some (JsNum.fin 0) ∨
        b.presencePenalty = some JsNum.nan →
      (buildRequestBody b).presence_penalty = JsNum.fin 0) ∧
    (∀ n, b.frequencyPenalty = some n → n.truthy = true →
      (buildRequestBody b).frequency_penalty = jsClamp (JsNum.fin 0) (JsNum.fin 2) n) ∧
    (b.frequencyPenalty = none ∨ b.frequencyPenalty = some (JsNum.fin 0) ∨
        b.frequencyPenalty = some JsNum.nan →
      (buildRequestBody b).frequency_penalty = JsNum.fin 0) := by
  refine ⟨?_, ?_, ?_, ?_, ?_, ?_, ?_, ?_⟩
  · intro n hn ht
    simp [buildRequestBody, jsOrNum, hn, ht]
  · intro h
    rcases h with h | h | h <;>
      simp [buildRequestBody, jsOrNum, h, JsNum.truthy, clamp02_seventenths]
  · intro n hn ht
    simp [buildRequestBody, jsOrNum, hn, ht]
  · intro h
    rcases h with h | h | h <;>
      simp [buildRequestBody, jsOrNum, h, JsNum.truthy, clampTok_thousand]
  · intro n hn ht
    simp [buildRequestBody, jsOrNum, hn, ht]
  · intro h
    rcases h with h | h | h <;>
      simp [buildRequestBody, jsOrNum, h, JsNum.truthy, clamp02_zero]
  · intro n hn ht
    simp [buildRequestBody, jsOrNum, hn, ht]
  · intro h
    rcases h with h | h | h <;>
      simp [buildRequestBody, jsOrNum, h, JsNum.truthy, clamp02_zero]

theorem c2_witness :
    (buildRequestBody
        { userPrompt := ['h', 'i'], temperature := some (JsNum.fin 5) }).temperature =
      jsClamp (JsNum.fin 0) (JsNum.fin 2) (JsNum.fin 5) ∧
    (buildRequestBody
        { userPrompt := ['h', 'i'], maxTokens := some (JsNum.fin 999999) }).max_tokens =
      jsClamp (JsNum.fin 1) (JsNum.fin 4000) (JsNum.fin 999999) ∧
    (buildRequestBody { userPrompt := ['h', 'i'] }).temperature = JsNum.fin (7/10) :=
  ⟨(c2_amended_forwarding _).1 _ rfl (by decide),
   (c2_amended_forwarding _).2.2.1 _ rfl (by decide),
   (c2_amended_forwarding _).2.1 (Or.inl rfl)⟩

/-- A numeric field the validator lets through: absent, NaN (both of its
bound comparisons are false), or a finite value inside the bound. -/
def acceptedNumeric (v : JsVal) (lo hi : ℚ) : Prop :=
  v = JsVal.undef ∨ v = JsVal.num JsNum.nan ∨
    ∃ q, v = JsVal.num (JsNum.fin q) ∧ lo ≤ q ∧ q ≤ hi

lemma numBad_false_accepted {v : JsVal} {lo hi : ℚ}
    (h : numBad v (JsNum.fin lo) (JsNum.fin hi) = false) : acceptedNumeric v lo hi := by
  cases v with
  | undef => exact Or.inl rfl
  | num n =>
    cases n with
    | nan => exact Or.inr (Or.inl rfl)
    | posInf => simp [numBad, JsNum.jlt] at h
    | negInf => simp [numBad, JsNum.jlt] at h
    | fin q =>
      simp only [numBad, JsNum.jlt, Bool.or_eq_false_iff, decide_eq_false_iff_not,
        not_lt] at h
      exact Or.inr (Or.inr ⟨q, rfl, h.1, h.2⟩)
  | nullv => simp [numBad] at h
  | boolv x => simp [numBad] at h
  | str s => simp [numBad] at h
  | obj => simp [numBad] at h

/-- C3 counterexample: the claim says a present numeric value is accepted
only if it is a number lying within the documented bound; the validator
accepts `temperature = NaN` (both bound comparisons are false for NaN),
yet NaN lies within no bound. -/
theorem c3_counterexample :
    validateChatRequest
      { userPrompt := JsVal.str ['h', 'i'], temperature := JsVal.num JsNum.nan } = none ∧
    ¬ specWithinBound 0 2 JsNum.nan := by
  refine ⟨by decide, ?_⟩
  rintro ⟨q, hq, -, -⟩
  exact JsNum.noConfusion hq

/-- C3 (amended): a request the validator accepts has each numeric
parameter absent, NaN, or a finite number within its documented bound;
outright non-numbers and values whose bound comparison fires are
rejected, and the validator never modifies (clamps) a value — it only
decides pass or fail. -/
theorem c3_amended_numeric_acceptance (b : ChatBody) (h : validateChatRequest b = none) :
    acceptedNumeric b.temperature 0 2 ∧ acceptedNumeric b.maxTokens 1 4000 ∧
      acceptedNumeric b.presencePenalty 0 2 ∧ acceptedNumeric b.frequencyPenalty 0 2 := by
  obtain ⟨s, -, -, -, -, -, h1, h2, h3, h4, -⟩ := validate_none_conditions h
  exact ⟨numBad_false_accepted h1, numBad_false_accepted h2,
    numBad_false_accepted h3, numBad_false_accepted h4⟩

theorem c3_witness :
    acceptedNumeric (JsVal.num (JsNum.fin 1)) 0 2 ∧ acceptedNumeric JsVal.undef 1 4000 ∧
      acceptedNumeric JsVal.undef 0 2 ∧ acceptedNumeric JsVal.undef 0 2 :=
  c3_amended_numeric_acceptance
    { userPrompt := JsVal.str ['h', 'i'], temperature := JsVal.num (JsNum.fin 1) } (by decide)

/-- Modelled from the spec: "split on commas, trim, drop empty, drop
entries over 100 characters, keep at most the first 4; if the resulting
list is empty, omit the stop field entirely".  Stated without the code's
`stopSequence && stopSequence.trim()` guard, to compare with `buildStop`. -/
def specStop (s : JsStr) : Option (List JsStr) :=
  if (((splitOnComma s).map jsTrim).filter
      (fun t => decide (0 < t.length) && decide (t.length ≤ 100))).take 4 = [] then none
  else
    some ((((splitOnComma s).map jsTrim).filter
      (fun t => decide (0 < t.length) && decide (t.length ≤ 100))).take 4)

/-- C4: for every string `stopSequence`, the forwarded `stop` field equals
the spec's split/trim/filter/take-4 result, with the field omitted when
that result is empty; in particular `"a,,b,c,d,e"` forwards exactly
`["a","b","c","d"]` and `",, ,"` forwards no stop field. -/
theorem c4_stop_sequence (b : ValidBody) :
    (∀ s, b.stopSequence = some s → (buildRequestBody b).stop = specStop s) ∧
    specStop (String.toList "a,,b,c,d,e") = some [['a'], ['b'], ['c'], ['d']] ∧
    specStop (String.toList ",, ,") = none := by
  refine ⟨?_, by decide, by decide⟩
  intro s hs
  have hproj : (buildRequestBody b).stop = buildStop b.stopSequence := rfl
  rw [hproj, hs]
  by_cases hg : s ≠ [] ∧ jsTrim s ≠ []
  · simp only [buildStop, specStop]
    rw [if_pos hg]
  · simp only [buildStop, specStop]
    rw [if_neg hg]
    rcases not_and_or.mp hg with h | h
    · rw [not_ne_iff] at h
      subst h
      decide
    · rw [not_ne_iff] at h
      have hall : ∀ c ∈ s, isWs c = true := (jsTrim_eq_nil_iff s).mp h
      have hfilter : ((splitOnComma s).map jsTrim).filter
          (fun t => decide (0 < t.length) && decide (t.length ≤ 100)) = [] := by
        rw [List.filter_eq_nil_iff]
        intro t ht
        obtain ⟨u, hu, rfl⟩ := List.mem_map.mp ht
        have htr : jsTrim u = [] :=
          (jsTrim_eq_nil_iff u).mpr (fun c hc => hall c (mem_of_mem_splitOnComma hu hc))
        rw [htr]
        simp
      rw [hfilter]
      simp

theorem c4_witness :
    (buildRequestBody
        { userPrompt := ['h', 'i'],
          stopSequence := some (String.toList "a,,b,c,d,e") }).stop =
      specStop (String.toList "a,,b,c,d,e") :=
  (c4_stop_sequence _).1 _ rfl

/-- The four `error.code` values the catch block recognizes. -/
def isTaxonomyCode (c : Option String) : Bool :=
  decide (c = some "insufficient_quota") || decide (c = some "invalid_api_key") ||
    decide (c = some "model_not_found") || decide (c = some "rate_limit_exceeded")

/-- C5: the catch block maps each upstream failure to exactly one fixed
(status, type) pair: `insufficient_quota` → 402 `quota_exceeded`,
`invalid_api_key` → 401 `invalid_key`, `model_not_found` → 400
`model_not_found`, `rate_limit_exceeded` → 429 `rate_limit`, an abort
(timeout) → 408 `timeout`, and anything else → 500 `server_error`. -/
theorem c5_error_taxonomy (e : UpstreamError) :
    (e.code = some "insufficient_quota" →
      translateError e =
        ⟨402, "API quota exceeded. Please check your billing details.", "quota_exceeded"⟩) ∧
    (e.code = some "invalid_api_key" →
      translateError e = ⟨401, "Invalid API key configuration.", "invalid_key"⟩) ∧
    (e.code = some "model_not_found" →
      translateError e = ⟨400, "The specified model is not available.", "model_not_found"⟩) ∧
    (e.code = some "rate_limit_exceeded" →
      translateError e = ⟨429, "Rate limit exceeded. Please try again later.", "rate_limit"⟩) ∧
    (isTaxonomyCode e.code = false → e.name = "AbortError" →
      translateError e = ⟨408, "Request timeout. Please try again.", "timeout"⟩) ∧
    (isTaxonomyCode e.code = false → e.name ≠ "AbortError" →
      translateError e =
        ⟨500, "An error occurred while processing your request", "server_error"⟩) := by
  refine ⟨?_, ?_, ?_, ?_, ?_, ?_⟩ <;> unfold translateError
  · intro h
    rw [if_pos h]
  · intro h
    rw [if_neg (by simp [h]), if_pos h]
  · intro h
    rw [if_neg (by simp [h]), if_neg (by simp [h]), if_pos h]
  · intro h
    rw [if_neg (by simp [h]), if_neg (by simp [h]), if_neg (by simp [h]), if_pos h]
  · intro hc hn
    simp only [isTaxonomyCode, Bool.or_eq_false_iff, decide_eq_false_iff_not] at hc
    rw [if_neg hc.1.1.1, if_neg hc.1.1.2, if_neg hc.1.2, if_neg hc.2, if_pos hn]
  · intro hc hn
    simp only [isTaxonomyCode, Bool.or_eq_false_iff, decide_eq_false_iff_not] at hc
    rw [if_neg hc.1.1.1, if_neg hc.1.1.2, if_neg hc.1.2, if_neg hc.2, if_neg hn]

theorem c5_witness :
    translateError ⟨some "insufficient_quota", "Error", "x"⟩ =
      ⟨402, "API quota exceeded. Please check your billing details.", "quota_exceeded"⟩ ∧
    translateError ⟨some "invalid_api_key", "Error", "x"⟩ =
      ⟨401, "Invalid API key configuration.", "invalid_key"⟩ ∧
    translateError ⟨some "model_not_found", "Error", "x"⟩ =
      ⟨400, "The specified model is not available.", "model_not_found"⟩ ∧
    translateError ⟨some "rate_limit_exceeded", "Error", "x"⟩ =
      ⟨429, "Rate limit exceeded. Please try again later.", "rate_limit"⟩ ∧
    translateError ⟨none, "AbortError", "x"⟩ =
      ⟨408, "Request timeout. Please try again.", "timeout"⟩ ∧
    translateError ⟨some "weird_code", "TypeError", "boom"⟩ =
      ⟨500, "An error occurred while processing your request", "server_error"⟩ :=
  ⟨(c5_error_taxonomy _).1 rfl,
   (c5_error_taxonomy _).2.1 rfl,
   (c5_error_taxonomy _).2.2.1 rfl,
   (c5_error_taxonomy _).2.2.2.1 rfl,
   (c5_error_taxonomy _).2.2.2.2.1 (by decide) rfl,
   (c5_error_taxonomy _).2.2.2.2.2 (by decide) (by decide)⟩

/-- C6: the hardened catch block answers every unexpected upstream error
with one fixed sanitized 500 body, but the legacy server's catch block
(`src/server/index.js` lines 144-148, cited by the claim) echoes
`error.message` in its 500 body, so two distinct unexpected errors get
different bodies and internal text leaks to the client — contradicting
the repository's own SECURITY_AUDIT.md, which lists this error
information disclosure as a vulnerability. -/
theorem c6_legacy_500_leaks_message :
    translateError ⟨none, "Error", "connect ECONNREFUSED 10.0.0.5:443"⟩ =
      translateError ⟨some "weird_code", "TypeError", "boom"⟩ ∧
    (legacyTranslateError ⟨none, "Error", "connect ECONNREFUSED 10.0.0.5:443"⟩).error =
      "connect ECONNREFUSED 10.0.0.5:443" ∧
    legacyTranslateError ⟨none, "Error", "connect ECONNREFUSED 10.0.0.5:443"⟩ ≠
      legacyTranslateError ⟨none, "Error", "boom"⟩ := by
  refine ⟨by decide, by decide, by decide⟩

/-- C7: whatever numeric values reach the request builder — absent,
in-range, out-of-range, infinite or NaN — the forwarded `temperature`,
`presence_penalty` and `frequency_penalty` are finite values in [0,2]
and the forwarded `max_tokens` is a finite value in [1,4000]. -/
theorem c7_builder_always_in_range (b : ValidBody) :
    specWithinBound 0 2 (buildRequestBody b).temperature ∧
      specWithinBound 1 4000 (buildRequestBody b).max_tokens ∧
      specWithinBound 0 2 (buildRequestBody b).presence_penalty ∧
      specWithinBound 0 2 (buildRequestBody b).frequency_penalty := by
  refine ⟨?_, ?_, ?_, ?_⟩ <;>
    exact jsClamp_within (by norm_num)
      (jsOrNum_ne_nan _ (fun hx => JsNum.noConfusion hx))

/-- A `model` field the validator lets through: any falsy value (absent,
empty string, 0, null, false) or a string in the allow-list. -/
def modelAccepted (v : JsVal) : Prop :=
  jsTruthy v = false ∨ ∃ m, v = JsVal.str m ∧ m ∈ allowedModels

lemma modelBad_false_accepted {v : JsVal} (h : modelBad v = false) : modelAccepted v := by
  unfold modelBad at h
  by_cases ht : jsTruthy v = true
  · rw [ht] at h
    simp only [Bool.true_and] at h
    cases v with
    | str m =>
      simp only [modelInAllowed] at h
      simp at h
      exact Or.inr ⟨m, rfl, h⟩
    | undef => simp [modelInAllowed] at h
    | nullv => simp [modelInAllowed] at h
    | boolv x => simp [modelInAllowed] at h
    | num x => simp [modelInAllowed] at h
    | obj => simp [modelInAllowed] at h
  · simp only [Bool.not_eq_true] at ht
    exact Or.inl ht

/-- C8 counterexample: a request carrying `model: ""` — a model value not
in the allow-list — passes validation (empty string is falsy, so the
allow-list check is skipped) and the builder silently replaces it with
the baseline, instead of the request being rejected. -/
theorem c8_counterexample :
    validateChatRequest
      { userPrompt := JsVal.str ['h', 'i'], model := JsVal.str [] } = none ∧
    ([] : JsStr) ∉ allowedModels ∧
    handleChat { userPrompt := JsVal.str ['h', 'i'], model := JsVal.str [] } =
      EndpointOutcome.forward
        (buildRequestBody
          (toValidBody { userPrompt := JsVal.str ['h', 'i'], model := JsVal.str [] })) ∧
    (buildRequestBody
        (toValidBody { userPrompt := JsVal.str ['h', 'i'], model := JsVal.str [] })).model =
      String.toList "gpt-3.5-turbo" := by
  exact ⟨by decide, by decide, rfl, by decide⟩

/-- C8 (amended): a request carrying a truthy `model` value is accepted
only if the value is a string in the fixed allow-list; a falsy `model`
(absent, empty string, 0, null, false) is accepted and the builder
forwards the fixed baseline `gpt-3.5-turbo`; a non-empty validated model
string is forwarded unchanged. -/
theorem c8_amended_model_allowlist (b : ChatBody) (vb : ValidBody) :
    (validateChatRequest b = none → modelAccepted b.model) ∧
    (vb.model = none ∨ vb.model = some [] →
      (buildRequestBody vb).model = String.toList "gpt-3.5-turbo") ∧
    (∀ m, vb.model = some m → m ≠ [] → (buildRequestBody vb).model = m) := by
  refine ⟨?_, ?_, ?_⟩
  · intro h
    obtain ⟨s, -, -, -, -, hm, -, -, -, -, -⟩ := validate_none_conditions h
    exact modelBad_false_accepted hm
  · rintro (h | h) <;> simp [buildRequestBody, jsOrStr, h]
  · intro m hm hne
    simp [buildRequestBody, jsOrStr, hm, hne]

theorem c8_witness :
    modelAccepted (JsVal.str (String.toList "gpt-4")) ∧
    (buildRequestBody { userPrompt := ['h', 'i'] }).model = String.toList "gpt-3.5-turbo" ∧
    (buildRequestBody
        { userPrompt := ['h', 'i'], model := some (String.toList "gpt-4") }).model =
      String.toList "gpt-4" :=
  ⟨(c8_amended_model_allowlist
      { userPrompt := JsVal.str ['h', 'i'], model := JsVal.str (String.toList "gpt-4") }
      { userPrompt := ['h', 'i'] }).1 (by decide),
   (c8_amended_model_allowlist { userPrompt := JsVal.str ['h', 'i'] }
      { userPrompt := ['h', 'i'] }).2.1 (Or.inl rfl),
   (c8_amended_model_allowlist { userPrompt := JsVal.str ['h', 'i'] }
      { userPrompt := ['h', 'i'], model := some (String.toList "gpt-4") }).2.2 _ rfl
      (by decide)⟩

lemma jlt_nan_left (x : JsNum) : JsNum.jlt JsNum.nan x = false := by
  cases x <;> rfl

lemma jlt_nan_right (x : JsNum) : JsNum.jlt x JsNum.nan = false := by
  cases x <;> rfl

lemma numBad_nan (lo hi : JsNum) : numBad (JsVal.num JsNum.nan) lo hi = false := by
  show (JsNum.jlt JsNum.nan lo || JsNum.jlt hi JsNum.nan) = false
  rw [jlt_nan_left, jlt_nan_right]
  rfl

lemma numBad_undef (lo hi : JsNum) : numBad JsVal.undef lo hi = false := rfl

/-- C9: a request in which any of the four numeric parameters is supplied
as NaN validates exactly as if that field were absent (NaN has number
type and neither bound comparison fires), and the builder then forwards
that field's default — 0.7 for `temperature`, 1000 for `maxTokens`, 0 for
`presencePenalty` and `frequencyPenalty` — because NaN is falsy, so the
`value || default` pattern selects the default. -/
theorem c9_nan_accepted_then_defaulted (b : ChatBody) (vb : ValidBody) :
    (b.temperature = JsVal.num JsNum.nan →
      validateChatRequest b =
        validateChatRequest { b with temperature := JsVal.undef }) ∧
    (b.maxTokens = JsVal.num JsNum.nan →
      validateChatRequest b =
        validateChatRequest { b with maxTokens := JsVal.undef }) ∧
    (b.presencePenalty = JsVal.num JsNum.nan →
      validateChatRequest b =
        validateChatRequest { b with presencePenalty := JsVal.undef }) ∧
    (b.frequencyPenalty = JsVal.num JsNum.nan →
      validateChatRequest b =
        validateChatRequest { b with frequencyPenalty := JsVal.undef }) ∧
    (vb.temperature = some JsNum.nan →
      (buildRequestBody vb).temperature = JsNum.fin (7/10)) ∧
    (vb.maxTokens = some JsNum.nan →
      (buildRequestBody vb).max_tokens = JsNum.fin 1000) ∧
    (vb.presencePenalty = some JsNum.nan →
      (buildRequestBody vb).presence_penalty = JsNum.fin 0) ∧
    (vb.frequencyPenalty = some JsNum.nan →
      (buildRequestBody vb).frequency_penalty = JsNum.fin 0) := by
  refine ⟨?_, ?_, ?_, ?_, ?_, ?_, ?_, ?_⟩
  · intro h
    have h0 : ({ b with temperature := JsVal.undef } : ChatBody).userPrompt =
        b.userPrompt := rfl
    have h1 : ({ b with temperature := JsVal.undef } : ChatBody).systemPrompt =
        b.systemPrompt := rfl
    have h2 : ({ b with temperature := JsVal.undef } : ChatBody).model =
        b.model := rfl
    have h3 : ({ b with temperature := JsVal.undef } : ChatBody).temperature =
        JsVal.undef := rfl
    have h4 : ({ b with temperature := JsVal.undef } : ChatBody).maxTokens =
        b.maxTokens := rfl
    have h5 : ({ b with temperature := JsVal.undef } : ChatBody).presencePenalty =
        b.presencePenalty := rfl
    have h6 : ({ b with temperature := JsVal.undef } : ChatBody).frequencyPenalty =
        b.frequencyPenalty := rfl
    have h7 : ({ b with temperature := JsVal.undef } : ChatBody).stopSequence =
        b.stopSequence := rfl
    unfold validateChatRequest
    rw [h0, h1, h2, h3, h4, h5, h6, h7]
    simp only [h, numBad_nan, numBad_undef]
  · intro h
    have h0 : ({ b with maxTokens := JsVal.undef } : ChatBody).userPrompt =
        b.userPrompt := rfl
    have h1 : ({ b with maxTokens := JsVal.undef } : ChatBody).systemPrompt =
        b.systemPrompt := rfl
    have h2 : ({ b with maxTokens := JsVal.undef } : ChatBody).model =
        b.model := rfl
    have h3 : ({ b with maxTokens := JsVal.undef } : ChatBody).temperature =
        b.temperature := rfl
    have h4 : ({ b with maxTokens := JsVal.undef } : ChatBody).maxTokens =
        JsVal.undef := rfl
    have h5 : ({ b with maxTokens := JsVal.undef } : ChatBody).presencePenalty =
        b.presencePenalty := rfl
    have h6 : ({ b with maxTokens := JsVal.undef } : ChatBody).frequencyPenalty =
        b.frequencyPenalty := rfl
    have h7 : ({ b with maxTokens := JsVal.undef } : ChatBody).stopSequence =
        b.stopSequence := rfl
    unfold validateChatRequest
    rw [h0, h1, h2, h3, h4, h5, h6, h7]
    simp only [h, numBad_nan, numBad_undef]
  · intro h
    have h0 : ({ b with presencePenalty := JsVal.undef } : ChatBody).userPrompt =
        b.userPrompt := rfl
    have h1 : ({ b with presencePenalty := JsVal.undef } : ChatBody).systemPrompt =
        b.systemPrompt := rfl
    have h2 : ({ b with presencePenalty := JsVal.undef } : ChatBody).model =
        b.model := rfl
    have h3 : ({ b with presencePenalty := JsVal.undef } : ChatBody).temperature =
        b.temperature := rfl
    have h4 : ({ b with presencePenalty := JsVal.undef } : ChatBody).maxTokens =
        b.maxTokens := rfl
    have h5 : ({ b with presencePenalty := JsVal.undef } : ChatBody).presencePenalty =
        JsVal.undef := rfl
    have h6 : ({ b with presencePenalty := JsVal.undef } : ChatBody).frequencyPenalty =
        b.frequencyPenalty := rfl
    have h7 : ({ b with presencePenalty := JsVal.undef } : ChatBody).stopSequence =
        b.stopSequence := rfl
    unfold validateChatRequest
    rw [h0, h1, h2, h3, h4, h5, h6, h7]
    simp only [h, numBad_nan, numBad_undef]
  · intro h
    have h0 : ({ b with frequencyPenalty := JsVal.undef } : ChatBody).userPrompt =
        b.userPrompt := rfl
    have h1 : ({ b with frequencyPenalty := JsVal.undef } : ChatBody).systemPrompt =
        b.systemPrompt := rfl
    have h2 : ({ b with frequencyPenalty := JsVal.undef } : ChatBody).model =
        b.model := rfl
    have h3 : ({ b with frequencyPenalty := JsVal.undef } : ChatBody).temperature =
        b.temperature := rfl
    have h4 : ({ b with frequencyPenalty := JsVal.undef } : ChatBody).maxTokens =
        b.maxTokens := rfl
    have h5 : ({ b with frequencyPenalty := JsVal.undef } : ChatBody).presencePenalty =
        b.presencePenalty := rfl
    have h6 : ({ b with frequencyPenalty := JsVal.undef } : ChatBody).frequencyPenalty =
        JsVal.undef := rfl
    have h7 : ({ b with frequencyPenalty := JsVal.undef } : ChatBody).stopSequence =
        b.stopSequence := rfl
    unfold validateChatRequest
    rw [h0, h1, h2, h3, h4, h5, h6, h7]
    simp only [h, numBad_nan, numBad_undef]
  · intro h
    simp [buildRequestBody, jsOrNum, h, JsNum.truthy, clamp02_seventenths]
  · intro h
    simp [buildRequestBody, jsOrNum, h, JsNum.truthy, clampTok_thousand]
  · intro h
    simp [buildRequestBody, jsOrNum, h, JsNum.truthy, clamp02_zero]
  · intro h
    simp [buildRequestBody, jsOrNum, h, JsNum.truthy, clamp02_zero]

theorem c9_witness :
    validateChatRequest
      { userPrompt := JsVal.str ['h', 'i'], temperature := JsVal.num JsNum.nan } =
      validateChatRequest { userPrompt := JsVal.str ['h', 'i'] } ∧
    validateChatRequest
      { userPrompt := JsVal.str ['h', 'i'], maxTokens := JsVal.num JsNum.nan } =
      validateChatRequest { userPrompt := JsVal.str ['h', 'i'] } ∧
    validateChatRequest
      { userPrompt := JsVal.str ['h', 'i'], presencePenalty := JsVal.num JsNum.nan } =
      validateChatRequest { userPrompt := JsVal.str ['h', 'i'] } ∧
    validateChatRequest
      { userPrompt := JsVal.str ['h', 'i'], frequencyPenalty := JsVal.num JsNum.nan } =
      validateChatRequest { userPrompt := JsVal.str ['h', 'i'] } ∧
    (buildRequestBody
        { userPrompt := ['h', 'i'], temperature := some JsNum.nan }).temperature =
      JsNum.fin (7/10) ∧
    (buildRequestBody
        { userPrompt := ['h', 'i'], maxTokens := some JsNum.nan }).max_tokens =
      JsNum.fin 1000 ∧
    (buildRequestBody
        { userPrompt := ['h', 'i'], presencePenalty := some JsNum.nan }).presence_penalty =
      JsNum.fin 0 ∧
    (buildRequestBody
        { userPrompt := ['h', 'i'], frequencyPenalty := some JsNum.nan }).frequency_penalty =
      JsNum.fin 0 :=
⟨(c9_nan_accepted_then_defaulted
      { userPrompt := JsVal.str ['h', 'i'], temperature := JsVal.num JsNum.nan }
      { userPrompt := ['h', 'i'] }).1 rfl,
  (c9_nan_accepted_then_defaulted
      { userPrompt := JsVal.str ['h', 'i'], maxTokens := JsVal.num JsNum.nan }
      { userPrompt := ['h', 'i'] }).2.1 rfl,
  (c9_nan_accepted_then_defaulted
      { userPrompt := JsVal.str ['h', 'i'], presencePenalty := JsVal.num JsNum.nan }
      { userPrompt := ['h', 'i'] }).2.2.1 rfl,
  (c9_nan_accepted_then_defaulted
      { userPrompt := JsVal.str ['h', 'i'], frequencyPenalty := JsVal.num JsNum.nan }
      { userPrompt := ['h', 'i'] }).2.2.2.1 rfl,
  (c9_nan_accepted_then_defaulted { userPrompt := JsVal.str ['h', 'i'] }
      { userPrompt := ['h', 'i'], temperature := some JsNum.nan }).2.2.2.2.1 rfl,
  (c9_nan_accepted_then_defaulted { userPrompt := JsVal.str ['h', 'i'] }
      { userPrompt := ['h', 'i'], maxTokens := some JsNum.nan }).2.2.2.2.2.1 rfl,
  (c9_nan_accepted_then_defaulted { userPrompt := JsVal.str ['h', 'i'] }
      { userPrompt := ['h', 'i'], presencePenalty := some JsNum.nan }).2.2.2.2.2.2.1 rfl,
  (c9_nan_accepted_then_defaulted { userPrompt := JsVal.str ['h', 'i'] }
      { userPrompt := ['h', 'i'], frequencyPenalty := some JsNum.nan }).2.2.2.2.2.2.2 rfl⟩

/-- C10: the 8000-character limit is checked on the raw, untrimmed
`userPrompt` (any raw length over 8000 is rejected with
`validation_error`, whatever its trimmed length), while every forwarded
payload carries a user message whose content is the trimmed
`userPrompt`. -/
theorem c10_raw_length_checked_trimmed_forwarded (b : ChatBody) :
    (∀ s, b.userPrompt = JsVal.str s → 8000 < s.length →
      ∃ e, validateChatRequest b = some e ∧ e.status = 400 ∧
        e.type = "validation_error") ∧
    (∀ rb, handleChat b = EndpointOutcome.forward rb →
      ∃ s, b.userPrompt = JsVal.str s ∧ Message.mk "user" (jsTrim s) ∈ rb.messages) := by
  constructor
  · intro s hs hlen
    by_cases htrim : jsTrim s = []
    · refine ⟨userPromptRequiredErr, ?_, rfl, rfl⟩
      unfold validateChatRequest
      rw [hs]
      simp [htrim]
    · refine ⟨userPromptTooLongErr, ?_, rfl, rfl⟩
      unfold validateChatRequest
      rw [hs]
      simp [htrim, hlen]
  · intro rb hrb
    unfold handleChat at hrb
    cases hv : validateChatRequest b with
    | some e =>
      rw [hv] at hrb
      exact EndpointOutcome.noConfusion hrb
    | none =>
      rw [hv] at hrb
      injection hrb with hrb
      obtain ⟨s, hs, -, -, -, -, -, -, -, -, -⟩ := validate_none_conditions hv
      refine ⟨s, hs, ?_⟩
      rw [← hrb]
      have hu : (toValidBody b).userPrompt = s := by simp [toValidBody, hs]
      simp [buildRequestBody, buildMessages, hu]

/-- The raw prompt of the C10 witness: raw length 8001, trimmed length 1. -/
def longPrompt : JsStr := 'a' :: List.replicate 8000 ' '

theorem c10_witness :
    8000 < longPrompt.length ∧
    (∃ e, validateChatRequest { userPrompt := JsVal.str longPrompt } = some e ∧
      e.status = 400 ∧ e.type = "validation_error") ∧
    (∃ s, ({ userPrompt := JsVal.str ['h', 'i'] } : ChatBody).userPrompt = JsVal.str s ∧
      Message.mk "user" (jsTrim s) ∈
        (buildRequestBody (toValidBody { userPrompt := JsVal.str ['h', 'i'] })).messages) := by
  have hlen : 8000 < longPrompt.length := by norm_num [longPrompt]
  exact ⟨hlen,
    (c10_raw_length_checked_trimmed_forwarded _).1 longPrompt rfl hlen,
    (c10_raw_length_checked_trimmed_forwarded _).2 _ rfl⟩
